import Mathlib

/-!
Shallow embedding of `src/BuzzFence/buzzFence/buzzFence.ino`, the control
core of the WiFence wearable proximity-fence controller, together with
proofs of its specified properties.

The sketch keeps its state in file-scope globals; here they are bundled
into one record `St`.  The external clock (`millis()`) and the external
scan primitive (`WiFi.scanNetworks` plus the SSID/RSSI accessors) are
modelled as inputs to each step: a step receives the current time `now`
and the list of visible `(ssid, rssi)` pairs.  Calls to
`analogWrite(MOTOR_PIN, v)` are recorded in a ghost trace `motorWrites`
(the source only writes when the speed changes, and so does the model),
and the two pattern-related serial prints ("Buzz n started",
"Pattern complete") are recorded as ghost `events`.  The LED and the
remaining serial logging are purely observational and are not modelled.
`delay` only burns real time and changes no state, so it is dropped; the
time elapsed during delays shows up as larger `now` inputs at later steps.
Unsigned 32-bit `millis()` arithmetic is modelled on `Nat` (timestamps are
monotone and differences never wrap in the regimes the claims are about).
-/

namespace BuzzFence

/-- `TARGET_SSID` from the source (line 8). -/
def TARGET_SSID : String := "thatOne"

/-- `RSSI_THRESHOLD` from the source (line 11): dBm boundary threshold. -/
def RSSI_THRESHOLD : Int := -75

/-- `BUZZ_DURATION` from the source (line 12): ms, each buzz length. -/
def BUZZ_DURATION : Nat := 300

/-- `BUZZ_PAUSE` from the source (line 13): ms, pause between buzzes. -/
def BUZZ_PAUSE : Nat := 100

/-- `PATTERN_PAUSE` from the source (line 14): ms, pause after 3 buzzes. -/
def PATTERN_PAUSE : Nat := 2000

/-- `NORMAL_SCAN_INTERVAL` from the source (line 15). -/
def NORMAL_SCAN_INTERVAL : Nat := 1000

/-- `FAST_SCAN_INTERVAL` from the source (line 16). -/
def FAST_SCAN_INTERVAL : Nat := 200

/-- `FAILSAFE_TIMEOUT` from the source (line 17): 30 s without WiFi. -/
def FAILSAFE_TIMEOUT : Nat := 30000

/-- `MAX_SCAN_ATTEMPTS` from the source (line 18). -/
def MAX_SCAN_ATTEMPTS : Nat := 3

/-- Ghost record of the two pattern-related serial prints in
`handleBoundaryWarning`: "Buzz n started" (line 195) and
"Pattern complete, starting long pause" (line 214). -/
inductive Event where
  | buzzStart (n : Nat)
  | patternComplete
  deriving DecidableEq

/-- The file-scope state variables of the sketch (lines 20-33), plus the
ghost fields `motorWrites` (trace of `analogWrite` values issued by
`setMotorSpeed`) and `events` (trace of pattern serial prints). -/
structure St where
  lastScanTime : Nat
  lastNetworkSeen : Nat
  buzzStartTime : Nat
  currentScanInterval : Nat
  failedScans : Nat
  inBoundaryWarning : Bool
  inFailsafe : Bool
  buzzCount : Nat
  buzzing : Bool
  buzzPause : Bool
  currentMotorSpeed : Int
  motorWrites : List Int
  events : List Event
  deriving DecidableEq

/-- Arduino `constrain(amt, low, high)`. -/
def constrain (x lo hi : Int) : Int :=
  if x < lo then lo else if x > hi then hi else x

/-- Arduino `map(x, in_min, in_max, out_min, out_max)`: long integer
arithmetic with C truncating division, hence `Int.tdiv`. -/
def arduinoMap (x inMin inMax outMin outMax : Int) : Int :=
  Int.tdiv ((x - inMin) * (outMax - outMin)) (inMax - inMin) + outMin

/-- `mapRSSIToMotorSpeed` (lines 144-157). -/
def mapRSSIToMotorSpeed (rssi : Int) : Int :=
  if rssi ≥ -40 then 0
  else if rssi ≤ RSSI_THRESHOLD then 150
  else arduinoMap rssi (-40) RSSI_THRESHOLD 0 150

/-- `setMotorSpeed` (lines 159-167): constrain to [0,255] and write to the
motor pin only when the value changes. -/
def setMotorSpeed (speed : Int) (s : St) : St :=
  let sp := constrain speed 0 255
  if sp ≠ s.currentMotorSpeed then
    { s with currentMotorSpeed := sp, motorWrites := s.motorWrites ++ [sp] }
  else s

/-- `enterBoundaryWarning` (lines 169-176). -/
def enterBoundaryWarning (s : St) : St :=
  setMotorSpeed 0
    { s with inBoundaryWarning := true, buzzCount := 0,
             buzzing := false, buzzPause := false }

/-- `exitBoundaryWarning` (lines 178-184). -/
def exitBoundaryWarning (s : St) : St :=
  setMotorSpeed 0
    { s with inBoundaryWarning := false, buzzing := false, buzzPause := false }

/-- `handleBoundaryWarning` (lines 186-224): one tick of the boundary
pattern machine at time `now`, three sequential conditional blocks exactly
as in the source. -/
def handleBoundaryWarning (now : Nat) (s : St) : St :=
  let s1 :=
    if s.buzzing = false ∧ s.buzzPause = false then
      setMotorSpeed 200
        { s with buzzing := true, buzzStartTime := now,
                 events := s.events ++ [Event.buzzStart (s.buzzCount + 1)] }
    else s
  let s2 :=
    if s1.buzzing = true ∧ now - s1.buzzStartTime ≥ BUZZ_DURATION then
      let t := setMotorSpeed 0
        { s1 with buzzing := false, buzzCount := s1.buzzCount + 1 }
      if t.buzzCount < 3 then
        { t with buzzPause := true, buzzStartTime := now }
      else
        { t with buzzCount := 0, buzzPause := true, buzzStartTime := now,
                 events := t.events ++ [Event.patternComplete] }
    else s1
  if s2.buzzPause = true then
    let pauseDuration := if s2.buzzCount = 0 then PATTERN_PAUSE else BUZZ_PAUSE
    if now - s2.buzzStartTime ≥ pauseDuration then
      { s2 with buzzPause := false }
    else s2
  else s2

/-- `enterFailsafeMode` (lines 226-246): guarded by `!inFailsafe`, forces
the boundary machine out, then issues two 255/0 pulses and a final 255
(the delays between the writes change no state). -/
def enterFailsafeMode (s : St) : St :=
  if s.inFailsafe = true then s
  else
    let s := exitBoundaryWarning { s with inFailsafe := true }
    let s := setMotorSpeed 255 s
    let s := setMotorSpeed 0 s
    let s := setMotorSpeed 255 s
    let s := setMotorSpeed 0 s
    setMotorSpeed 255 s

/-- `exitFailsafeMode` (lines 248-255). -/
def exitFailsafeMode (s : St) : St :=
  if s.inFailsafe = true then
    setMotorSpeed 0 { s with inFailsafe := false }
  else s

/-- `scanAndRespond` (lines 81-142).  The scan outcome is the input list
`networks` of `(ssid, rssi)` pairs; the source scans it for the first
entry whose SSID equals `TARGET_SSID` (an empty result list behaves the
same as no match). -/
def scanAndRespond (now : Nat) (networks : List (String × Int)) (s : St) : St :=
  match networks.find? (fun p => p.1 == TARGET_SSID) with
  | none =>
    let s := { s with failedScans := s.failedScans + 1 }
    if now - s.lastNetworkSeen > FAILSAFE_TIMEOUT ∨ s.failedScans ≥ MAX_SCAN_ATTEMPTS then
      enterFailsafeMode s
    else
      let s := setMotorSpeed 255 s
      { s with currentScanInterval := FAST_SCAN_INTERVAL }
  | some p =>
    let targetRSSI := p.2
    let s := { s with lastNetworkSeen := now, failedScans := 0 }
    let s := if s.inFailsafe = true then exitFailsafeMode s else s
    if targetRSSI ≤ RSSI_THRESHOLD then
      let s := if s.inBoundaryWarning = false then enterBoundaryWarning s else s
      { s with currentScanInterval := FAST_SCAN_INTERVAL }
    else
      let s := if s.inBoundaryWarning = true then exitBoundaryWarning s else s
      let s := setMotorSpeed (mapRSSIToMotorSpeed targetRSSI) s
      { s with currentScanInterval := NORMAL_SCAN_INTERVAL }

/-- The scan half of `loop` (lines 62-65): scan when due and stamp
`lastScanTime`. -/
def scanPhase (now : Nat) (networks : List (String × Int)) (s : St) : St :=
  if now - s.lastScanTime ≥ s.currentScanInterval then
    let s1 := scanAndRespond now networks s
    { s1 with lastScanTime := now }
  else s

/-- One iteration of `loop` (lines 58-79): the scan phase followed by the
boundary-pattern tick, which is guarded by
`inBoundaryWarning && !inFailsafe` (line 68). -/
def loopStep (now : Nat) (networks : List (String × Int)) (s : St) : St :=
  let s1 := scanPhase now networks s
  if s1.inBoundaryWarning = true ∧ s1.inFailsafe = false then
    handleBoundaryWarning now s1
  else s1

/-- The state after `setup` (lines 35-56): all globals at their
initializers, with `lastNetworkSeen = millis()` = the start time `t0`. -/
def initState (t0 : Nat) : St :=
  { lastScanTime := 0
    lastNetworkSeen := t0
    buzzStartTime := 0
    currentScanInterval := NORMAL_SCAN_INTERVAL
    failedScans := 0
    inBoundaryWarning := false
    inFailsafe := false
    buzzCount := 0
    buzzing := false
    buzzPause := false
    currentMotorSpeed := 0
    motorWrites := []
    events := [] }

/-- States reachable by the control loop from startup, for arbitrary clock
readings and scan results. -/
inductive Reachable : St → Prop where
  | init (t0 : Nat) : Reachable (initState t0)
  | step (now : Nat) (networks : List (String × Int)) {s : St} :
      Reachable s → Reachable (loopStep now networks s)

/-- Run `handleBoundaryWarning` at each time in `ticks`, in order. -/
def runTicks (ticks : List Nat) (s : St) : St :=
  ticks.foldl (fun s t => handleBoundaryWarning t s) s

/-! ### Helper lemmas: field effects of each operation -/

@[simp] theorem setMotorSpeed_inFailsafe (v : Int) (s : St) :
    (setMotorSpeed v s).inFailsafe = s.inFailsafe := by
  simp only [setMotorSpeed]; split <;> rfl

@[simp] theorem setMotorSpeed_inBoundaryWarning (v : Int) (s : St) :
    (setMotorSpeed v s).inBoundaryWarning = s.inBoundaryWarning := by
  simp only [setMotorSpeed]; split <;> rfl

@[simp] theorem setMotorSpeed_buzzing (v : Int) (s : St) :
    (setMotorSpeed v s).buzzing = s.buzzing := by
  simp only [setMotorSpeed]; split <;> rfl

@[simp] theorem setMotorSpeed_buzzPause (v : Int) (s : St) :
    (setMotorSpeed v s).buzzPause = s.buzzPause := by
  simp only [setMotorSpeed]; split <;> rfl

@[simp] theorem setMotorSpeed_buzzCount (v : Int) (s : St) :
    (setMotorSpeed v s).buzzCount = s.buzzCount := by
  simp only [setMotorSpeed]; split <;> rfl

@[simp] theorem setMotorSpeed_buzzStartTime (v : Int) (s : St) :
    (setMotorSpeed v s).buzzStartTime = s.buzzStartTime := by
  simp only [setMotorSpeed]; split <;> rfl

@[simp] theorem setMotorSpeed_failedScans (v : Int) (s : St) :
    (setMotorSpeed v s).failedScans = s.failedScans := by
  simp only [setMotorSpeed]; split <;> rfl

@[simp] theorem setMotorSpeed_lastNetworkSeen (v : Int) (s : St) :
    (setMotorSpeed v s).lastNetworkSeen = s.lastNetworkSeen := by
  simp only [setMotorSpeed]; split <;> rfl

@[simp] theorem setMotorSpeed_lastScanTime (v : Int) (s : St) :
    (setMotorSpeed v s).lastScanTime = s.lastScanTime := by
  simp only [setMotorSpeed]; split <;> rfl

@[simp] theorem setMotorSpeed_currentScanInterval (v : Int) (s : St) :
    (setMotorSpeed v s).currentScanInterval = s.currentScanInterval := by
  simp only [setMotorSpeed]; split <;> rfl

@[simp] theorem setMotorSpeed_currentMotorSpeed (v : Int) (s : St) :
    (setMotorSpeed v s).currentMotorSpeed = constrain v 0 255 := by
  simp only [setMotorSpeed]
  split
  · rfl
  · next h => exact (not_ne_iff.mp h).symm

@[simp] theorem setMotorSpeed_events (v : Int) (s : St) :
    (setMotorSpeed v s).events = s.events := by
  simp only [setMotorSpeed]; split <;> rfl

theorem setMotorSpeed_motorWrites (v : Int) (s : St) :
    (setMotorSpeed v s).motorWrites =
      s.motorWrites ++
        (if constrain v 0 255 = s.currentMotorSpeed then [] else [constrain v 0 255]) := by
  simp only [setMotorSpeed]
  by_cases h : constrain v 0 255 = s.currentMotorSpeed
  · simp [h]
  · simp [h]

@[simp] theorem constrain_zero : constrain 0 0 255 = 0 := rfl

@[simp] theorem constrain_twoHundred : constrain 200 0 255 = 200 := rfl

@[simp] theorem constrain_max : constrain 255 0 255 = 255 := rfl

@[simp] theorem enterBoundaryWarning_fields (s : St) :
    (enterBoundaryWarning s).inBoundaryWarning = true ∧
    (enterBoundaryWarning s).inFailsafe = s.inFailsafe ∧
    (enterBoundaryWarning s).buzzCount = 0 ∧
    (enterBoundaryWarning s).buzzing = false ∧
    (enterBoundaryWarning s).buzzPause = false ∧
    (enterBoundaryWarning s).currentMotorSpeed = 0 := by
  simp [enterBoundaryWarning]

@[simp] theorem exitBoundaryWarning_fields (s : St) :
    (exitBoundaryWarning s).inBoundaryWarning = false ∧
    (exitBoundaryWarning s).inFailsafe = s.inFailsafe ∧
    (exitBoundaryWarning s).buzzCount = s.buzzCount ∧
    (exitBoundaryWarning s).buzzing = false ∧
    (exitBoundaryWarning s).buzzPause = false ∧
    (exitBoundaryWarning s).currentMotorSpeed = 0 := by
  simp [exitBoundaryWarning]

theorem exitBoundaryWarning_motorWrites (s : St) :
    (exitBoundaryWarning s).motorWrites =
      s.motorWrites ++ (if s.currentMotorSpeed = 0 then [] else [(0 : Int)]) := by
  simp only [exitBoundaryWarning, setMotorSpeed_motorWrites, constrain_zero]
  by_cases h : s.currentMotorSpeed = 0 <;> simp [h, eq_comm]

@[simp] theorem exitFailsafeMode_inFailsafe (s : St) :
    (exitFailsafeMode s).inFailsafe = false := by
  unfold exitFailsafeMode
  split
  · simp
  · next h => simpa using h

@[simp] theorem exitFailsafeMode_inBoundaryWarning (s : St) :
    (exitFailsafeMode s).inBoundaryWarning = s.inBoundaryWarning := by
  unfold exitFailsafeMode; split <;> simp

@[simp] theorem exitFailsafeMode_buzzCount (s : St) :
    (exitFailsafeMode s).buzzCount = s.buzzCount := by
  unfold exitFailsafeMode; split <;> simp

theorem exitFailsafeMode_of_active (s : St) (h : s.inFailsafe = true) :
    (exitFailsafeMode s).currentMotorSpeed = 0 := by
  simp [exitFailsafeMode, h]

@[simp] theorem enterFailsafeMode_inFailsafe (s : St) :
    (enterFailsafeMode s).inFailsafe = true := by
  unfold enterFailsafeMode
  split
  · next h => exact h
  · simp

theorem enterFailsafeMode_of_active (s : St) (h : s.inFailsafe = true) :
    enterFailsafeMode s = s := by
  simp [enterFailsafeMode, h]

theorem enterFailsafeMode_inBoundaryWarning (s : St) (h : s.inFailsafe = false) :
    (enterFailsafeMode s).inBoundaryWarning = false := by
  simp [enterFailsafeMode, h]

theorem enterFailsafeMode_buzzCount (s : St) :
    (enterFailsafeMode s).buzzCount = s.buzzCount := by
  unfold enterFailsafeMode
  split
  · rfl
  · simp

theorem handleBoundaryWarning_inFailsafe (now : Nat) (s : St) :
    (handleBoundaryWarning now s).inFailsafe = s.inFailsafe := by
  simp only [handleBoundaryWarning]
  repeat' split
  all_goals simp

theorem handleBoundaryWarning_inBoundaryWarning (now : Nat) (s : St) :
    (handleBoundaryWarning now s).inBoundaryWarning = s.inBoundaryWarning := by
  simp only [handleBoundaryWarning]
  repeat' split
  all_goals simp

theorem handleBoundaryWarning_buzzCount_lt (now : Nat) (s : St)
    (h : s.buzzCount < 3) : (handleBoundaryWarning now s).buzzCount < 3 := by
  simp only [handleBoundaryWarning]
  repeat' split
  all_goals simp_all

theorem scanAndRespond_some_inFailsafe (now : Nat) (networks : List (String × Int))
    (s : St) (p : String × Int)
    (hf : networks.find? (fun q => q.1 == TARGET_SSID) = some p) :
    (scanAndRespond now networks s).inFailsafe = false := by
  unfold scanAndRespond
  rw [hf]
  simp only
  repeat' split
  all_goals simp_all

theorem scanAndRespond_none_inFailsafe (now : Nat) (networks : List (String × Int))
    (s : St) (hf : networks.find? (fun q => q.1 == TARGET_SSID) = none)
    (h : s.inFailsafe = true) :
    (scanAndRespond now networks s).inFailsafe = true := by
  unfold scanAndRespond
  rw [hf]
  simp only
  repeat' split
  all_goals simp_all

theorem scanAndRespond_mutex (now : Nat) (networks : List (String × Int)) (s : St)
    (ih : s.inFailsafe = true → s.inBoundaryWarning = false) :
    (scanAndRespond now networks s).inFailsafe = true →
    (scanAndRespond now networks s).inBoundaryWarning = false := by
  intro hF
  cases hf : networks.find? (fun q => q.1 == TARGET_SSID) with
  | some p => rw [scanAndRespond_some_inFailsafe now networks s p hf] at hF; cases hF
  | none =>
    unfold scanAndRespond at hF ⊢
    rw [hf] at hF ⊢
    revert hF
    simp only
    split
    · intro _
      by_cases h1 : s.inFailsafe = true
      · rw [enterFailsafeMode_of_active _
          (show ({ s with failedScans := s.failedScans + 1 } : St).inFailsafe = true from h1)]
        exact ih h1
      · rw [enterFailsafeMode_inBoundaryWarning _
          (show ({ s with failedScans := s.failedScans + 1 } : St).inFailsafe = false by
            simpa using h1)]
    · intro hF
      simp_all

theorem scanAndRespond_buzzCount_lt (now : Nat) (networks : List (String × Int))
    (s : St) (h : s.buzzCount < 3) :
    (scanAndRespond now networks s).buzzCount < 3 := by
  unfold scanAndRespond
  cases hf : networks.find? (fun q => q.1 == TARGET_SSID) with
  | none =>
    simp only
    repeat' split
    all_goals simp_all [enterFailsafeMode_buzzCount]
  | some p =>
    simp only
    repeat' split
    all_goals simp_all

theorem loopStep_mutex (now : Nat) (networks : List (String × Int)) (s : St)
    (ih : s.inFailsafe = true → s.inBoundaryWarning = false) :
    (loopStep now networks s).inFailsafe = true →
    (loopStep now networks s).inBoundaryWarning = false := by
  have hscan : (scanPhase now networks s).inFailsafe = true →
      (scanPhase now networks s).inBoundaryWarning = false := by
    unfold scanPhase
    split
    · simpa using scanAndRespond_mutex now networks s ih
    · exact ih
  simp only [loopStep]
  split
  · next hg =>
    rw [handleBoundaryWarning_inFailsafe, handleBoundaryWarning_inBoundaryWarning]
    exact hscan
  · exact hscan

theorem loopStep_buzzCount_lt (now : Nat) (networks : List (String × Int)) (s : St)
    (h : s.buzzCount < 3) : (loopStep now networks s).buzzCount < 3 := by
  have hscan : (scanPhase now networks s).buzzCount < 3 := by
    unfold scanPhase
    split
    · simpa using scanAndRespond_buzzCount_lt now networks s h
    · exact h
  simp only [loopStep]
  split
  · exact handleBoundaryWarning_buzzCount_lt now _ hscan
  · exact hscan

/-! ### Claim theorems -/

/-- Claim C5: the signal mapper satisfies its endpoint postconditions:
every strength at least -40 maps to intensity 0, and every strength at
most -75 (the RSSI threshold) maps to intensity 150. -/
theorem map_endpoints :
    (∀ s : Int, s ≥ -40 → mapRSSIToMotorSpeed s = 0) ∧
    (∀ s : Int, s ≤ -75 → mapRSSIToMotorSpeed s = 150) := by
  constructor
  · intro s hs
    simp [mapRSSIToMotorSpeed, hs]
  · intro s hs
    have h1 : ¬ (s ≥ -40) := by omega
    have h2 : s ≤ RSSI_THRESHOLD := by unfold RSSI_THRESHOLD; omega
    simp [mapRSSIToMotorSpeed, h1, h2]

/-- Witness for C5 at strengths -30 and -80. -/
theorem map_endpoints_witness :
    mapRSSIToMotorSpeed (-30) = 0 ∧ mapRSSIToMotorSpeed (-80) = 150 :=
  ⟨map_endpoints.1 (-30) (by decide), map_endpoints.2 (-80) (by decide)⟩

/-- Claim C6: on the open interval (-75, -40) the mapped intensity is
monotonically non-increasing as strength increases, and always lies in
[0, 150]. -/
theorem map_monotone_bounded :
    (∀ s1 s2 : Int, -75 < s1 → s1 < s2 → s2 < -40 →
      mapRSSIToMotorSpeed s2 ≤ mapRSSIToMotorSpeed s1) ∧
    (∀ s : Int, -75 < s → s < -40 →
      0 ≤ mapRSSIToMotorSpeed s ∧ mapRSSIToMotorSpeed s ≤ 150) := by
  constructor
  · intro s1 s2 h1 h12 h2
    have hu : s1 < -40 := by omega
    have hl : -75 < s2 := by omega
    interval_cases s1 <;> interval_cases s2 <;> decide
  · intro s h1 h2
    interval_cases s <;> decide

/-- Witness for C6 at strengths -60 and -50. -/
theorem map_monotone_bounded_witness :
    mapRSSIToMotorSpeed (-50) ≤ mapRSSIToMotorSpeed (-60) ∧
    0 ≤ mapRSSIToMotorSpeed (-60) ∧ mapRSSIToMotorSpeed (-60) ≤ 150 :=
  ⟨map_monotone_bounded.1 (-60) (-50) (by decide) (by decide) (by decide),
   map_monotone_bounded.2 (-60) (by decide) (by decide)⟩

/-- Claim C7: from every sub-state of the boundary pattern machine,
`exitBoundaryWarning` immediately commands intensity 0 and resets the
machine to its idle encoding (buzzing and buzzPause cleared, warning flag
cleared); the only motor write it can issue is the single 0 (no
partial-pulse completion). -/
theorem exit_boundary_immediate (s : St) :
    (exitBoundaryWarning s).currentMotorSpeed = 0 ∧
    (exitBoundaryWarning s).inBoundaryWarning = false ∧
    (exitBoundaryWarning s).buzzing = false ∧
    (exitBoundaryWarning s).buzzPause = false ∧
    (exitBoundaryWarning s).motorWrites =
      s.motorWrites ++ (if s.currentMotorSpeed = 0 then [] else [(0 : Int)]) := by
  refine ⟨?_, ?_, ?_, ?_, exitBoundaryWarning_motorWrites s⟩ <;>
    simp [exitBoundaryWarning]

/-- Claim C1: in every reachable state of the control loop, an Active
failsafe forces the boundary machine to be exited (the two warning modes
are mutually exclusive), and the loop never ticks the boundary-pattern
handler while failsafe is Active (the tick phase is the identity then). -/
theorem boundary_failsafe_mutual_exclusion :
    (∀ s : St, Reachable s → s.inFailsafe = true → s.inBoundaryWarning = false) ∧
    (∀ (now : Nat) (networks : List (String × Int)) (s : St),
      (scanPhase now networks s).inFailsafe = true →
      loopStep now networks s = scanPhase now networks s) := by
  constructor
  · intro s hs
    induction hs with
    | init t0 => intro h; cases h
    | step now networks hr ih => exact loopStep_mutex now networks _ ih
  · intro now networks s h
    simp [loopStep, h]

/-- Witness for C1: after one loop iteration at time 40000 with an empty
scan (failsafe fires by timeout), failsafe is Active and the boundary
machine is exited. -/
theorem boundary_failsafe_mutual_exclusion_witness :
    (loopStep 40000 [] (initState 0)).inBoundaryWarning = false :=
  boundary_failsafe_mutual_exclusion.1 _
    (Reachable.step 40000 [] (Reachable.init 0)) (by decide)

/-- Claim C2: on a scan that misses the target network, failsafe becomes
Active exactly when, after the miss is counted, either the miss count has
reached MAX_SCAN_ATTEMPTS or more than FAILSAFE_TIMEOUT has passed since
the last sighting; when neither holds the miss commands intensity 255 and
the fast scan interval, and leaves the boundary flag alone (no mapping). -/
theorem miss_failsafe_entry_iff (s : St) (now : Nat)
    (networks : List (String × Int))
    (habs : networks.find? (fun p => p.1 == TARGET_SSID) = none)
    (hfs : s.inFailsafe = false) :
    ((scanAndRespond now networks s).inFailsafe = true ↔
      (now - s.lastNetworkSeen > FAILSAFE_TIMEOUT ∨
       s.failedScans + 1 ≥ MAX_SCAN_ATTEMPTS)) ∧
    (¬(now - s.lastNetworkSeen > FAILSAFE_TIMEOUT ∨
       s.failedScans + 1 ≥ MAX_SCAN_ATTEMPTS) →
      (scanAndRespond now networks s).currentMotorSpeed = 255 ∧
      (scanAndRespond now networks s).currentScanInterval = FAST_SCAN_INTERVAL ∧
      (scanAndRespond now networks s).inBoundaryWarning = s.inBoundaryWarning) := by
  unfold scanAndRespond
  rw [habs]
  simp only
  by_cases hc : now - s.lastNetworkSeen > FAILSAFE_TIMEOUT ∨
      s.failedScans + 1 ≥ MAX_SCAN_ATTEMPTS
  · rw [if_pos (by simpa using hc)]
    exact ⟨by simp [hc], fun h => absurd hc h⟩
  · rw [if_neg (by simpa using hc)]
    refine ⟨?_, fun _ => by simp⟩
    simp [hc, hfs]

/-- Witness for C2 at startup with an empty scan at time 0: neither
failsafe condition holds, so the miss commands 255 and the fast interval. -/
theorem miss_failsafe_entry_iff_witness :
    (scanAndRespond 0 [] (initState 0)).currentMotorSpeed = 255 ∧
    (scanAndRespond 0 [] (initState 0)).currentScanInterval = FAST_SCAN_INTERVAL ∧
    ¬((scanAndRespond 0 [] (initState 0)).inFailsafe = true) := by
  have h := miss_failsafe_entry_iff (initState 0) 0 [] rfl rfl
  have hc : ¬((0 : Nat) - (initState 0).lastNetworkSeen > FAILSAFE_TIMEOUT ∨
      (initState 0).failedScans + 1 ≥ MAX_SCAN_ATTEMPTS) := by decide
  exact ⟨(h.2 hc).1, (h.2 hc).2.1, fun hx => hc (h.1.mp hx)⟩

/-- Claim C3: an Active failsafe is only deactivated by a loop iteration
whose scan fires and finds the target network; no passage of time alone
clears it, and the exit operation itself immediately commands intensity 0. -/
theorem failsafe_exit_only_by_sighting :
    (∀ (s : St) (now : Nat) (networks : List (String × Int)),
      s.inFailsafe = true → (loopStep now networks s).inFailsafe = false →
      now - s.lastScanTime ≥ s.currentScanInterval ∧
      (networks.find? (fun p => p.1 == TARGET_SSID)).isSome = true) ∧
    (∀ s : St, s.inFailsafe = true →
      (exitFailsafeMode s).inFailsafe = false ∧
      (exitFailsafeMode s).currentMotorSpeed = 0) := by
  constructor
  · intro s now networks hF hExit
    have hstep : (loopStep now networks s).inFailsafe =
        (scanPhase now networks s).inFailsafe := by
      simp only [loopStep]
      split
      · exact handleBoundaryWarning_inFailsafe now _
      · rfl
    rw [hstep] at hExit
    by_cases hdue : now - s.lastScanTime ≥ s.currentScanInterval
    · refine ⟨hdue, ?_⟩
      cases hf : networks.find? (fun p => p.1 == TARGET_SSID) with
      | some p => rfl
      | none =>
        exfalso
        have : (scanPhase now networks s).inFailsafe = true := by
          unfold scanPhase
          rw [if_pos hdue]
          simpa using scanAndRespond_none_inFailsafe now networks s hf hF
        rw [this] at hExit
        cases hExit
    · exfalso
      have : (scanPhase now networks s).inFailsafe = true := by
        unfold scanPhase
        rw [if_neg hdue]
        exact hF
      rw [this] at hExit
      cases hExit
  · intro s h
    exact ⟨exitFailsafeMode_inFailsafe s, exitFailsafeMode_of_active s h⟩

/-- Witness for C3: from the failsafe state reached at time 40000, the
iteration at 41000 that sees the target at -50 dBm is a due scan with the
target present; and the exit operation zeroes the intensity there. -/
theorem failsafe_exit_only_by_sighting_witness :
    (41000 - (loopStep 40000 [] (initState 0)).lastScanTime ≥
      (loopStep 40000 [] (initState 0)).currentScanInterval ∧
     (([("thatOne", -50)] : List (String × Int)).find?
        (fun p => p.1 == TARGET_SSID)).isSome = true) ∧
    (exitFailsafeMode (loopStep 40000 [] (initState 0))).inFailsafe = false ∧
    (exitFailsafeMode (loopStep 40000 [] (initState 0))).currentMotorSpeed = 0 := by
  refine ⟨failsafe_exit_only_by_sighting.1 _ 41000 [("thatOne", -50)]
    (by decide) (by decide), failsafe_exit_only_by_sighting.2 _ (by decide)⟩

/-- Claim C4: entering the boundary pattern machine and ticking it at each
transition deadline for exactly 3*(BUZZ_DURATION+BUZZ_PAUSE) - BUZZ_PAUSE
+ PATTERN_PAUSE = 3100 ms of elapsed time produces exactly one full cycle
(three pulses at 200, each ended by a 0, then the long pause) and returns
the machine to Idle.  The tick times are the deadlines: pulse ends at
300/700/1100, short-pause ends at 400/800 (each followed by the
immediately-available tick that starts the next pulse), and long-pause
end at 1100 + PATTERN_PAUSE = 3100. -/
theorem boundary_pattern_cycle_timing :
    3 * (BUZZ_DURATION + BUZZ_PAUSE) - BUZZ_PAUSE + PATTERN_PAUSE = 3100 ∧
    ((runTicks [0, 300, 400, 400, 700, 800, 800, 1100, 3100]
        (enterBoundaryWarning (initState 0))).buzzing = false ∧
     (runTicks [0, 300, 400, 400, 700, 800, 800, 1100, 3100]
        (enterBoundaryWarning (initState 0))).buzzPause = false ∧
     (runTicks [0, 300, 400, 400, 700, 800, 800, 1100, 3100]
        (enterBoundaryWarning (initState 0))).buzzCount = 0 ∧
     (runTicks [0, 300, 400, 400, 700, 800, 800, 1100, 3100]
        (enterBoundaryWarning (initState 0))).events =
       [Event.buzzStart 1, Event.buzzStart 2, Event.buzzStart 3,
        Event.patternComplete] ∧
     (runTicks [0, 300, 400, 400, 700, 800, 800, 1100, 3100]
        (enterBoundaryWarning (initState 0))).motorWrites =
       [200, 0, 200, 0, 200, 0]) := by
  decide

/-- Claim C8: failsafe entry is edge-triggered and one-shot: from an
Inactive state it forces the boundary machine out and then issues exactly
the motor commands 255, 0, 255, 0 and the final held 255; invoked while
already Active it changes nothing. -/
theorem failsafe_entry_one_shot :
    (∀ s : St, s.inFailsafe = false →
      (enterFailsafeMode s).inFailsafe = true ∧
      (enterFailsafeMode s).inBoundaryWarning = false ∧
      (enterFailsafeMode s).buzzing = false ∧
      (enterFailsafeMode s).buzzPause = false ∧
      (enterFailsafeMode s).currentMotorSpeed = 255 ∧
      (enterFailsafeMode s).motorWrites =
        s.motorWrites ++ (if s.currentMotorSpeed = 0 then [] else [(0 : Int)])
          ++ [255, 0, 255, 0, 255]) ∧
    (∀ s : St, s.inFailsafe = true → enterFailsafeMode s = s) := by
  constructor
  · intro s h
    have hguard : ¬ (s.inFailsafe = true) := by simp [h]
    simp only [enterFailsafeMode, if_neg hguard]
    by_cases hm : s.currentMotorSpeed = 0 <;>
      refine ⟨?_, ?_, ?_, ?_, ?_, ?_⟩ <;>
        simp [setMotorSpeed_motorWrites, exitBoundaryWarning_motorWrites, hm]
  · intro s h
    simp [enterFailsafeMode, h]

/-- Witness for C8: entry from the startup state emits exactly
255, 0, 255, 0, 255, and entry in an already-Active state is a no-op. -/
theorem failsafe_entry_one_shot_witness :
    (enterFailsafeMode (initState 0)).inFailsafe = true ∧
    (enterFailsafeMode (initState 0)).motorWrites = [255, 0, 255, 0, 255] ∧
    enterFailsafeMode (loopStep 40000 [] (initState 0)) =
      loopStep 40000 [] (initState 0) := by
  have h1 := failsafe_entry_one_shot.1 (initState 0) rfl
  have h2 := failsafe_entry_one_shot.2 (loopStep 40000 [] (initState 0)) (by decide)
  exact ⟨h1.1, by simpa using h1.2.2.2.2.2, h2⟩

/-- Claim C9: in every reachable state observed between ticks the pulse
count is 0, 1 or 2; and a tick of the boundary handler emits the
"pattern complete" event exactly when that tick transitions the machine
into the long pause (buzzPause set with pulse count reset to 0). -/
theorem pulse_count_and_pattern_complete :
    (∀ s : St, Reachable s → s.buzzCount < 3) ∧
    (∀ (s : St) (now : Nat),
      Event.patternComplete ∈
          ((handleBoundaryWarning now s).events.drop s.events.length) ↔
        (¬(s.buzzing = false ∧ s.buzzPause = true ∧ s.buzzCount = 0) ∧
         ((handleBoundaryWarning now s).buzzing = false ∧
          (handleBoundaryWarning now s).buzzPause = true ∧
          (handleBoundaryWarning now s).buzzCount = 0))) := by
  constructor
  · intro s hs
    induction hs with
    | init t0 => simp [initState]
    | step now networks hr ih => exact loopStep_buzzCount_lt now networks _ ih
  · intro s now
    simp only [handleBoundaryWarning]
    repeat' split
    all_goals simp_all [BUZZ_DURATION, BUZZ_PAUSE, PATTERN_PAUSE]

/-- Witness for C9: the pulse count at startup, via reachability. -/
theorem pulse_count_and_pattern_complete_witness :
    (initState 5).buzzCount < 3 :=
  pulse_count_and_pattern_complete.1 _ (Reachable.init 5)

/-- Claim C10: a miss that does not trigger failsafe leaves the boundary
machine flags untouched, so if the machine was entered it stays entered;
concretely, one loop iteration from the entered machine at time 1000 with
an empty scan first commands 255 for the miss, then the handler ticks in
the same iteration and its pulse start overwrites the command with 200. -/
theorem miss_preserves_boundary :
    (∀ (s : St) (now : Nat) (networks : List (String × Int)),
      networks.find? (fun p => p.1 == TARGET_SSID) = none →
      ¬(now - s.lastNetworkSeen > FAILSAFE_TIMEOUT ∨
        s.failedScans + 1 ≥ MAX_SCAN_ATTEMPTS) →
      (scanAndRespond now networks s).inBoundaryWarning = s.inBoundaryWarning ∧
      (scanAndRespond now networks s).inFailsafe = s.inFailsafe ∧
      (scanAndRespond now networks s).buzzing = s.buzzing ∧
      (scanAndRespond now networks s).buzzPause = s.buzzPause ∧
      (scanAndRespond now networks s).buzzCount = s.buzzCount) ∧
    ((loopStep 1000 [] (enterBoundaryWarning (initState 0))).currentMotorSpeed
        = 200 ∧
     (loopStep 1000 [] (enterBoundaryWarning (initState 0))).motorWrites
        = [255, 200] ∧
     (loopStep 1000 [] (enterBoundaryWarning (initState 0))).inBoundaryWarning
        = true) := by
  constructor
  · intro s now networks habs hc
    unfold scanAndRespond
    rw [habs]
    simp only
    rw [if_neg (by simpa using hc)]
    simp
  · decide

/-- Witness for C10: the frame part applied to the entered machine at time
1000 with an empty scan: the boundary flag survives the miss. -/
theorem miss_preserves_boundary_witness :
    (scanAndRespond 1000 [] (enterBoundaryWarning (initState 0))).inBoundaryWarning
      = (enterBoundaryWarning (initState 0)).inBoundaryWarning :=
  (miss_preserves_boundary.1 (enterBoundaryWarning (initState 0)) 1000 []
    rfl (by decide)).1

end BuzzFence
